import Mathlib

/-!
Verification of the CodeGuard AI core: project profiling (`analyzeProject`),
context assembly for the model call (`analyzeCodebase`, phases 1-3 and the
retry loop of phase 6), the quality rubric (`QualityValidator`), and the
local post-processor (`OutputEnhancer`).  Definitions are shallow embeddings
of the TypeScript source: strings are `String`, JS numbers holding integral
scores are `Int`, file sizes and lengths are `Nat`, regex `test` calls on the
fixed literal patterns are hand-rolled decidable matchers over `List Char`.
-/

/- ### String primitives (embeddings of JS string operations) -/

/-- Embedding of JS `toLowerCase` restricted to ASCII, which is all the
fixed patterns of the analyzer use. -/
def lowerL (cs : List Char) : List Char := cs.map Char.toLower

/-- `prefixAt nee hay`: does `nee` occur as a prefix of `hay`? -/
def prefixAt : List Char → List Char → Bool
  | [], _ => true
  | _ :: _, [] => false
  | a :: as, b :: bs => a == b && prefixAt as bs

/-- `containsSub nee hay`: does `nee` occur as a contiguous substring of
`hay`?  Embedding of JS `String.prototype.includes` and of regex `test` for
patterns that are plain alternations of literals. -/
def containsSub (nee : List Char) : List Char → Bool
  | [] => prefixAt nee []
  | c :: t => prefixAt nee (c :: t) || containsSub nee t

/-- JS `hay.includes(nee)`. -/
def strIncludes (hay nee : String) : Bool := containsSub nee.data hay.data

/-- JS `s.toLowerCase()`. -/
def lowerStr (s : String) : String := String.mk (lowerL s.data)

/-- Case-insensitive substring test: `/nee/i.test(hay)` for a literal `nee`
(written lowercase at call sites). -/
def strIncludesCI (hay nee : String) : Bool := containsSub nee.data (lowerL hay.data)

/-- `hay.endsWith(nee)` / an end-anchored literal regex. -/
def strEndsWith (hay nee : String) : Bool := prefixAt nee.data.reverse hay.data.reverse

/-- Decimal digits of `n`, least significant first; fuel-structured so the
kernel can evaluate it. -/
def natRevDigits : Nat → Nat → List Char
  | 0, _ => []
  | fuel + 1, n =>
    if n < 10 then [Char.ofNat (48 + n)]
    else Char.ofNat (48 + n % 10) :: natRevDigits fuel (n / 10)

/-- Decimal rendering of a natural number, the embedding of `${n}` in JS
template literals for the integral quantities of the analyzer. -/
def natRepr (n : Nat) : String := String.mk (natRevDigits (n + 1) n).reverse

/-- JS whitespace test used by `String.prototype.trim` (the characters that
can actually occur here are the ASCII ones). -/
def isJsWs (c : Char) : Bool := c == ' ' || c == '\t' || c == '\n' || c == '\r'

/-- `s.trim()`: strip leading and trailing whitespace. -/
def trimStr (s : String) : String :=
  String.mk (((s.data.dropWhile isJsWs).reverse.dropWhile isJsWs).reverse)

/- ### Data model (`types.ts`) -/

/-- `FileContent` of `types.ts`: path, decoded content, size in the same
character units used for the budget checks (§6 of the spec). -/
structure FileContent where
  path : String
  content : String
  size : Nat
deriving DecidableEq

/-- `Hotspot` of `types.ts`. -/
structure Hotspot where
  file : String
  issue : String
  impact : String
  category : String
deriving DecidableEq

/-- `Bottleneck` of `types.ts`. -/
structure Bottleneck where
  location : String
  pattern : String
  reason : String
  suggestion : String
  category : String
deriving DecidableEq

/-- `AnalysisReport` of `types.ts`. -/
structure AnalysisReport where
  projectName : String
  totalFilesScanned : Nat
  timestamp : String
  highRiskHotspots : List Hotspot
  bottlenecks : List Bottleneck
  antiPatterns : List String
  architecturalObservations : List String
  optimizedCodeExample : String
  summary : String
deriving DecidableEq

/-- The four complexity tiers of a `ProjectProfile`. -/
inductive Complexity where
  | simple
  | medium
  | complex
  | enterprise
deriving DecidableEq

/-- Rendering used by `${this.complexity}` interpolations. -/
def Complexity.str : Complexity → String
  | .simple => "simple"
  | .medium => "medium"
  | .complex => "complex"
  | .enterprise => "enterprise"

/- ### Quality standards (`QUALITY_STANDARDS`) -/

/-- One row of `QUALITY_STANDARDS.MIN_FINDINGS`. -/
structure MinFindings where
  hotspots : Nat
  bottlenecks : Nat
  antiPatterns : Nat

/-- `QUALITY_STANDARDS.MIN_FINDINGS`. -/
def MIN_FINDINGS : Complexity → MinFindings
  | .simple => ⟨0, 1, 1⟩
  | .medium => ⟨1, 2, 2⟩
  | .complex => ⟨2, 3, 3⟩
  | .enterprise => ⟨3, 4, 4⟩

/-- `QUALITY_STANDARDS.SCORE_THRESHOLDS.acceptable`. -/
def SCORE_THRESHOLD_ACCEPTABLE : Int := 60

/-- `QUALITY_STANDARDS.LIMITS.summary.min`. -/
def LIMIT_SUMMARY_MIN : Nat := 50

/-- `QUALITY_STANDARDS.LIMITS.summary.max`. -/
def LIMIT_SUMMARY_MAX : Nat := 500

/-- `QUALITY_STANDARDS.LIMITS.optimizedCode.min`. -/
def LIMIT_OPTIMIZED_CODE_MIN : Nat := 100

/- ### The fixed regular expressions of `QUALITY_STANDARDS.REQUIRED_PATTERNS`

`quantification` is `/\d+(\.\d+)?(ms|s|MB|KB|GB|%|\$|x faster|queries|re-renders|hours?|days?)/i`.
A match is: one or more digits, an optional fraction, then one of the unit
literals immediately after.  Since no unit begins with a digit or a dot, the
backtracking search succeeds iff the maximal-munch scan below does; the `/i`
flag is embedded by lowercasing the haystack (the unit literals are stored
lowercase, and `hours?`/`days?` only need their mandatory part to witness a
match). -/

/-- The unit alternatives of the quantification pattern, lowercased. -/
def quantUnits : List (List Char) :=
  ["ms", "s", "mb", "kb", "gb", "%", "$", "x faster", "queries",
   "re-renders", "hour", "day"].map String.data

/-- Is one of the unit literals a prefix of `cs`? -/
def unitAt (cs : List Char) : Bool := quantUnits.any fun u => prefixAt u cs

/-- After the integer part: an optional `\.\d+` fraction, then a unit. -/
def quantTail (cs : List Char) : Bool :=
  (match cs with
   | '.' :: rest =>
     (match rest with
      | d :: _ => d.isDigit && unitAt (rest.dropWhile Char.isDigit)
      | [] => false)
   | _ => false)
  || unitAt cs

/-- Scan every start position for `digits (fraction)? unit`. -/
def quantScan : List Char → Bool
  | [] => false
  | c :: cs => (c.isDigit && quantTail (cs.dropWhile Char.isDigit)) || quantScan cs

/-- `QUALITY_STANDARDS.REQUIRED_PATTERNS.quantification.test s`. -/
def quantTest (s : String) : Bool := quantScan (lowerL s.data)

/-!
`location` is `/\.(ts|tsx|js|jsx|py|go|java|rs):[0-9]+|[A-Za-z]+\.tsx?:[0-9]+|function [A-Za-z]+/`
(case sensitive).  Each alternative is matched at every start position; a
trailing `+` only needs its first repetition to witness a match.
-/

/-- `:[0-9]+` immediately at `cs` (one digit witnesses the `+`). -/
def colonDigits : List Char → Bool
  | ':' :: c :: _ => c.isDigit
  | _ => false

/-- The extension alternatives of the first location alternative. -/
def locExts : List (List Char) :=
  ["ts", "tsx", "js", "jsx", "py", "go", "java", "rs"].map String.data

/-- `tsx?:[0-9]+` at `cs`: `ts`, an optional `x`, then `:[0-9]+`. -/
def tsOptXColon : List Char → Bool
  | 't' :: 's' :: rest =>
    colonDigits rest ||
    (match rest with
     | 'x' :: r => colonDigits r
     | _ => false)
  | _ => false

/-- Does some alternative of the location pattern match starting at `cs`? -/
def locAt (cs : List Char) : Bool :=
  (match cs with
   | '.' :: rest => locExts.any fun e => prefixAt e rest && colonDigits (rest.drop e.length)
   | _ => false)
  || (match cs with
      | c :: '.' :: rest => c.isAlpha && tsOptXColon rest
      | _ => false)
  || (prefixAt "function ".data cs &&
      (match cs.drop 9 with
       | c :: _ => c.isAlpha
       | _ => false))

/-- Scan every start position for the location pattern. -/
def locScan : List Char → Bool
  | [] => false
  | c :: cs => locAt (c :: cs) || locScan cs

/-- `QUALITY_STANDARDS.REQUIRED_PATTERNS.location.test s`. -/
def locTest (s : String) : Bool := locScan s.data

/- ### Quality metrics (`QualityValidator` of the quality-assurance module) -/

/-- Severity levels of a `QualityIssue`. -/
inductive Severity where
  | critical
  | warning
  | info
deriving DecidableEq

/-- `QualityIssue`. -/
structure QualityIssue where
  severity : Severity
  category : String
  message : String
  field : Option String
deriving DecidableEq

/-- The five-dimension breakdown of `QualityMetrics`. -/
structure ScoreBreakdown where
  completeness : Int
  specificity : Int
  quantification : Int
  actionability : Int
  consistency : Int
deriving DecidableEq

/-- `QualityMetrics`. -/
structure QualityMetrics where
  overallScore : Int
  breakdown : ScoreBreakdown
  issues : List QualityIssue
  recommendations : List String
  passesThreshold : Bool
deriving DecidableEq

namespace QualityValidator

/-- `checkCompleteness` (20 points): each deficiency both pushes an issue and
subtracts its penalty; the score is clamped at 0 on return. -/
def checkCompleteness (cx : Complexity) (r : AnalysisReport) : Int × List QualityIssue :=
  let std := MIN_FINDINGS cx
  let c1 := r.highRiskHotspots.length < std.hotspots
  let c2 := r.bottlenecks.length < std.bottlenecks
  let c3 := r.antiPatterns.length < std.antiPatterns
  let c4 := r.summary = "" ∨ r.summary.length < LIMIT_SUMMARY_MIN
  let c5 := r.optimizedCodeExample = "" ∨ r.optimizedCodeExample.length < LIMIT_OPTIMIZED_CODE_MIN
  let c6 := r.architecturalObservations.length = 0
  let score : Int := 20 - (if c1 then 5 else 0) - (if c2 then 5 else 0)
    - (if c3 then 3 else 0) - (if c4 then 5 else 0) - (if c5 then 5 else 0)
    - (if c6 then 2 else 0)
  let issues :=
    (if c1 then [⟨Severity.warning, "completeness",
      "Expected at least " ++ natRepr std.hotspots ++ " hotspots for " ++ cx.str
        ++ " project, got " ++ natRepr r.highRiskHotspots.length, none⟩] else [])
    ++ (if c2 then [⟨Severity.warning, "completeness",
      "Expected at least " ++ natRepr std.bottlenecks ++ " bottlenecks, got "
        ++ natRepr r.bottlenecks.length, none⟩] else [])
    ++ (if c3 then [⟨Severity.warning, "completeness",
      "Expected at least " ++ natRepr std.antiPatterns ++ " anti-patterns, got "
        ++ natRepr r.antiPatterns.length, none⟩] else [])
    ++ (if c4 then [⟨Severity.critical, "completeness",
      "Summary is missing or too short", some "summary"⟩] else [])
    ++ (if c5 then [⟨Severity.critical, "completeness",
      "Optimized code example is missing or too short", some "optimizedCodeExample"⟩] else [])
    ++ (if c6 then [⟨Severity.warning, "completeness",
      "No architectural observations provided", some "architecturalObservations"⟩] else [])
  (max 0 score, issues)

/-- The fixed denylist of generic phrasing used by `checkSpecificity`. -/
def genericTerms : List String :=
  ["bad code", "poor quality", "needs improvement", "could be better",
   "not optimal", "inefficient", "slow", "problems exist"]

/-- `checkSpecificity` (20 points). -/
def checkSpecificity (r : AnalysisReport) : Int × List QualityIssue :=
  let hw := r.highRiskHotspots.filter fun h => !locTest h.file
  let bw := r.bottlenecks.filter fun b => !locTest b.location
  let generic := (r.highRiskHotspots.map (·.issue) ++ r.bottlenecks.map (·.pattern)).any
    fun d => genericTerms.any fun t => strIncludes (lowerStr d) t
  let score : Int := 20
    - (if hw.length > 0 then min 10 ((hw.length : Int) * 2) else 0)
    - (if bw.length > 0 then min 10 ((bw.length : Int) * 2) else 0)
    - (if generic then 5 else 0)
  let issues :=
    (if hw.length > 0 then [⟨Severity.warning, "specificity",
      natRepr hw.length ++ " hotspots lack specific file:line locations",
      some "highRiskHotspots"⟩] else [])
    ++ (if bw.length > 0 then [⟨Severity.warning, "specificity",
      natRepr bw.length ++ " bottlenecks lack specific locations", some "bottlenecks"⟩] else [])
    ++ (if generic then [⟨Severity.warning, "specificity",
      "Some findings use generic/vague descriptions instead of specific patterns",
      none⟩] else [])
  (max 0 score, issues)

/-- `checkQuantification` (25 points), the most heavily weighted dimension. -/
def checkQuantification (r : AnalysisReport) : Int × List QualityIssue :=
  let hq := r.highRiskHotspots.filter fun h => !quantTest h.impact
  let bq := r.bottlenecks.filter fun b => !quantTest b.reason && !quantTest b.suggestion
  let oc := !quantTest r.optimizedCodeExample
  let score : Int := 25
    - (if hq.length > 0 then min 10 ((hq.length : Int) * 3) else 0)
    - (if bq.length > 0 then min 10 ((bq.length : Int) * 3) else 0)
    - (if oc then 5 else 0)
  let issues :=
    (if hq.length > 0 then [⟨Severity.critical, "quantification",
      natRepr hq.length ++ " hotspots lack quantified impact (needs numbers: ms, $, %, etc)",
      some "highRiskHotspots"⟩] else [])
    ++ (if bq.length > 0 then [⟨Severity.critical, "quantification",
      natRepr bq.length ++ " bottlenecks lack quantified metrics", some "bottlenecks"⟩] else [])
    ++ (if oc then [⟨Severity.warning, "quantification",
      "Optimized code example should include performance improvement metrics",
      some "optimizedCodeExample"⟩] else [])
  (max 0 score, issues)

/-- The hedging phrases of `checkActionability`. -/
def vaguePhrases : List String := ["consider", "maybe", "could", "might want to", "try to"]

/-- `checkActionability` (20 points). -/
def checkActionability (r : AnalysisReport) : Int × List QualityIssue :=
  let vague := r.bottlenecks.filter fun b =>
    vaguePhrases.any fun p => strIncludes (lowerStr b.suggestion) p
  let hasBefore := strIncludes (lowerStr r.optimizedCodeExample) "before"
  let hasAfter := strIncludes (lowerStr r.optimizedCodeExample) "after"
  let hasCodeBlocks := strIncludes r.optimizedCodeExample "```"
    || strIncludes r.optimizedCodeExample "//"
    || strIncludes r.optimizedCodeExample "const "
    || strIncludes r.optimizedCodeExample "function "
  let score : Int := 20
    - (if vague.length > 0 then min 8 ((vague.length : Int) * 2) else 0)
    - (if !hasBefore || !hasAfter then 5 else 0)
    - (if !hasCodeBlocks then 7 else 0)
  let issues :=
    (if vague.length > 0 then [⟨Severity.warning, "actionability",
      natRepr vague.length
        ++ " bottlenecks have vague suggestions (use imperative: \"Use X\", \"Replace Y with Z\")",
      some "bottlenecks"⟩] else [])
    ++ (if !hasBefore || !hasAfter then [⟨Severity.warning, "actionability",
      "Optimized code should show BEFORE and AFTER for clarity",
      some "optimizedCodeExample"⟩] else [])
    ++ (if !hasCodeBlocks then [⟨Severity.warning, "actionability",
      "Optimized code example should contain actual code, not just descriptions",
      some "optimizedCodeExample"⟩] else [])
  (max 0 score, issues)

/-- Number of entries having an equal earlier occurrence: the length of the
`allIssues.filter((item, index) => allIssues.indexOf(item) !== index)` array. -/
def dupCount (seen : List String) : List String → Nat
  | [] => 0
  | x :: xs => (if x ∈ seen then 1 else 0) + dupCount (x :: seen) xs

/-- `checkConsistency` (15 points). -/
def checkConsistency (r : AnalysisReport) : Int × List QualityIssue :=
  let long := r.summary.length > LIMIT_SUMMARY_MAX
  let allIssues := r.highRiskHotspots.map (·.issue) ++ r.bottlenecks.map (·.pattern)
  let dups := dupCount [] allIssues
  let verbose := r.antiPatterns.filter fun ap => ap.length > 100
  let tooShort := r.architecturalObservations.filter fun obs => obs.length < 30
  let score : Int := 15
    - (if long then 2 else 0)
    - (if dups > 0 then min 5 ((dups : Int) * 2) else 0)
    - (if verbose.length > 0 then 3 else 0)
    - (if tooShort.length > 0 then 2 else 0)
  let issues :=
    (if long then [⟨Severity.info, "consistency",
      "Summary exceeds recommended length (should be 2-3 sentences)", some "summary"⟩] else [])
    ++ (if dups > 0 then [⟨Severity.warning, "consistency",
      natRepr dups ++ " duplicate findings detected - each issue should be unique",
      none⟩] else [])
    ++ (if verbose.length > 0 then [⟨Severity.info, "consistency",
      "Anti-patterns should be concise labels, not full descriptions",
      some "antiPatterns"⟩] else [])
    ++ (if tooShort.length > 0 then [⟨Severity.info, "consistency",
      natRepr tooShort.length ++ " architectural observations are too brief",
      some "architecturalObservations"⟩] else [])
  (max 0 score, issues)

/-- `generateRecommendations`: critical items first, then per-dimension hints. -/
def generateRecommendations (cx : Complexity) (scores : ScoreBreakdown)
    (issues : List QualityIssue) : List String :=
  let criticalIssues := issues.filter fun i => i.severity = Severity.critical
  (if criticalIssues.length > 0 then
    "üö® CRITICAL: Fix these issues before submission:"
      :: criticalIssues.map (fun i => "  - " ++ i.message)
   else [])
  ++ (if scores.quantification < 20 then
    ["üí° Add quantified metrics: \"2.5s ‚Üí 45ms (55x faster)\", \"$2,040/year savings\""] else [])
  ++ (if scores.specificity < 15 then
    ["üí° Include specific locations: \"routes/users.ts:45\" not \"user routes\""] else [])
  ++ (if scores.actionability < 15 then
    ["üí° Provide concrete fixes with before/after code examples"] else [])
  ++ (if scores.completeness < 15 then
    ["üí° Add more findings - expected " ++ natRepr (MIN_FINDINGS cx).bottlenecks
      ++ "+ bottlenecks for " ++ cx.str ++ " projects"] else [])
  ++ (if scores.consistency < 12 then
    ["üí° Ensure consistent formatting: concise anti-patterns, detailed observations"] else [])

/-- `QualityValidator.validate`: run the five sub-scorers, sum the breakdown,
collect issues in scorer order, and compare against the acceptance threshold.
The constructor argument `complexity` is the first parameter here. -/
def validate (cx : Complexity) (r : AnalysisReport) : QualityMetrics :=
  let c := checkCompleteness cx r
  let s := checkSpecificity r
  let q := checkQuantification r
  let a := checkActionability r
  let co := checkConsistency r
  let scores : ScoreBreakdown := ⟨c.1, s.1, q.1, a.1, co.1⟩
  let overallScore := c.1 + s.1 + q.1 + a.1 + co.1
  let issues := c.2 ++ s.2 ++ q.2 ++ a.2 ++ co.2
  { overallScore := overallScore
    breakdown := scores
    issues := issues
    recommendations := generateRecommendations cx scores issues
    passesThreshold := decide (SCORE_THRESHOLD_ACCEPTABLE ≤ overallScore) }

end QualityValidator

/- ### `OutputEnhancer` -/

namespace OutputEnhancer

/-- `s.substring(0, n)`. -/
def takeStr (s : String) (n : Nat) : String := String.mk (s.data.take n)

/-- `s.substring(n)`. -/
def dropStr (s : String) (n : Nat) : String := String.mk (s.data.drop n)

/-- `enhanceSummary`: prepend a synthesized lead sentence built from the
finding counts, then `trim`. -/
def enhanceSummary (report : AnalysisReport) : String :=
  let hotspotsCount := report.highRiskHotspots.length
  let bottlenecksCount := report.bottlenecks.length
  let severity := if hotspotsCount > 2 then "critical"
    else if hotspotsCount > 0 then "important" else "minor"
  trimStr ("Analysis found " ++ natRepr hotspotsCount ++ " high-risk hotspots and "
    ++ natRepr bottlenecksCount ++ " performance bottlenecks requiring "
    ++ severity ++ " attention. " ++ report.summary)

/-- `addBeforeAfterStructure`: wrap the code in `BEFORE:`/`AFTER:` headers
splitting it in half, unless it already carries either marker. -/
def addBeforeAfterStructure (code : String) : String :=
  if strIncludes code "BEFORE" || strIncludes code "AFTER" then code
  else "// BEFORE: Current implementation\n" ++ takeStr code (code.length / 2)
    ++ "\n\n// AFTER: Optimized version\n" ++ dropStr code (code.length / 2)
    ++ "\n\n// Performance improvement: [Specific metrics needed]"

/-- First mutation of `enhance`: lengthen a too-short summary. -/
def enhanceSummaryStep (report : AnalysisReport) : AnalysisReport :=
  if report.summary.length < 50 then
    { report with summary := enhanceSummary report } else report

/-- Second mutation of `enhance`: give the optimized-code example
BEFORE/AFTER structure when its lowercased text lacks `before`. -/
def enhanceCodeStep (report : AnalysisReport) : AnalysisReport :=
  if strIncludes (lowerStr report.optimizedCodeExample) "before" = false then
    { report with optimizedCodeExample := addBeforeAfterStructure report.optimizedCodeExample }
  else report

/-- `OutputEnhancer.enhance`: the two sequential in-place mutations of the
source, expressed as a composition. -/
def enhance (report : AnalysisReport) : AnalysisReport :=
  enhanceCodeStep (enhanceSummaryStep report)

end OutputEnhancer

/- ### Module registry (`promptLibrary`)

`PromptModule` carries `id`, `name`, `priority`, `weight`, `detectCondition`
and `systemInstruction` in the source.  The claims under verification only
inspect ids, names, priorities and detection predicates, so the opaque
`systemInstruction` text block and the token-budget `weight` are not carried
in the embedding. -/

/-- `PromptModule` (without the opaque instruction-text and weight fields). -/
structure PromptModule where
  id : String
  name : String
  priority : Nat
  detectCondition : List FileContent → Bool

/-- Case-insensitive end-anchored literal match (`/\.yml$/i` style). -/
def strEndsWithCI (hay nee : String) : Bool :=
  prefixAt nee.data.reverse (lowerL hay.data).reverse

/-- `FRONTEND_REACT_MODULE`. -/
def FRONTEND_REACT_MODULE : PromptModule :=
  { id := "frontend_react", name := "React/Next.js Analysis", priority := 8,
    detectCondition := fun files => files.any fun f =>
      strEndsWith f.path ".tsx" || strEndsWith f.path ".jsx"
      || strIncludes f.content "import React"
      || strIncludes f.content "from \"react\"" }

/-- `FRONTEND_STATE_MODULE`. -/
def FRONTEND_STATE_MODULE : PromptModule :=
  { id := "frontend_state", name := "State Management Analysis", priority := 7,
    detectCondition := fun files => files.any fun f =>
      strIncludesCI f.content "redux" || strIncludesCI f.content "zustand"
      || strIncludesCI f.content "jotai" || strIncludesCI f.content "recoil"
      || strIncludesCI f.content "mobx" || strIncludesCI f.content "xstate"
      || strIncludesCI f.content "valtio"
      || strIncludes f.content "createContext"
      || strIncludes f.content "useReducer" }

/-- `FRONTEND_STYLING_MODULE`. -/
def FRONTEND_STYLING_MODULE : PromptModule :=
  { id := "frontend_styling", name := "Styling & UI Performance", priority := 5,
    detectCondition := fun files => files.any fun f =>
      strEndsWith f.path ".css" || strEndsWith f.path ".scss"
      || strEndsWith f.path ".sass" || strEndsWith f.path ".less"
      || strIncludesCI f.content "styled-components" || strIncludesCI f.content "emotion"
      || strIncludesCI f.content "tailwind" || strIncludesCI f.content "@apply"
      || strIncludes f.content "className=" }

/-- `BACKEND_API_MODULE`. -/
def BACKEND_API_MODULE : PromptModule :=
  { id := "backend_api", name := "API & Service Layer", priority := 9,
    detectCondition := fun files => files.any fun f =>
      strIncludesCI f.content "express" || strIncludesCI f.content "fastify"
      || strIncludesCI f.content "koa" || strIncludesCI f.content "hono"
      || strIncludesCI f.content "elysia"
      || strIncludesCI f.content "app.get" || strIncludesCI f.content "app.post"
      || strIncludesCI f.content "app.put" || strIncludesCI f.content "app.delete"
      || strIncludesCI f.content "app.patch"
      || strIncludesCI f.content "@get" || strIncludesCI f.content "@post"
      || strIncludesCI f.content "@put" || strIncludesCI f.content "@delete"
      || strIncludesCI f.content "@controller"
      || strIncludes f.path "routes" || strIncludes f.path "controllers"
      || strIncludes f.path "api" }

/-- `BACKEND_DATABASE_MODULE`. -/
def BACKEND_DATABASE_MODULE : PromptModule :=
  { id := "backend_database", name := "Database & ORM Optimization", priority := 10,
    detectCondition := fun files => files.any fun f =>
      strIncludesCI f.content "prisma" || strIncludesCI f.content "typeorm"
      || strIncludesCI f.content "sequelize" || strIncludesCI f.content "mongoose"
      || strIncludesCI f.content "drizzle"
      || strIncludesCI f.content "select" || strIncludesCI f.content "insert"
      || strIncludesCI f.content "update" || strIncludesCI f.content "delete"
      || strIncludesCI f.content "from" || strIncludesCI f.content "where"
      || strIncludes f.content "await db."
      || strIncludes f.content ".query("
      || strIncludes f.content ".execute(" }

/-- `BACKEND_SECURITY_MODULE`. -/
def BACKEND_SECURITY_MODULE : PromptModule :=
  { id := "backend_security", name := "Security Audit", priority := 10,
    detectCondition := fun files => files.any fun f =>
      strIncludesCI f.content "password" || strIncludesCI f.content "token"
      || strIncludesCI f.content "secret" || strIncludesCI f.content "api_key"
      || strIncludesCI f.content "auth" || strIncludesCI f.content "jwt"
      || strIncludes f.content "crypto" || strIncludes f.content "bcrypt"
      || strIncludes f.path "auth" }

/-- `BACKEND_ARCHITECTURE_MODULE`. -/
def BACKEND_ARCHITECTURE_MODULE : PromptModule :=
  { id := "backend_architecture", name := "System Architecture & Design Patterns",
    priority := 7,
    detectCondition := fun files =>
      decide (files.length > 20) || files.any fun f =>
        strIncludes f.path "services" || strIncludes f.path "repositories"
        || strIncludes f.path "domain" || strIncludes f.path "infrastructure" }

/-- `BACKEND_OBSERVABILITY_MODULE`. -/
def BACKEND_OBSERVABILITY_MODULE : PromptModule :=
  { id := "backend_observability", name := "Logging, Monitoring & Reliability",
    priority := 6,
    detectCondition := fun files => files.any fun f =>
      strIncludesCI f.content "console.log" || strIncludesCI f.content "console.error"
      || strIncludesCI f.content "console.warn"
      || strIncludesCI f.content "winston" || strIncludesCI f.content "pino"
      || strIncludesCI f.content "bunyan" || strIncludesCI f.content "logger"
      || strIncludes f.content "try" || strIncludes f.content "catch" }

/-- `INFRASTRUCTURE_MODULE` (only the `\.yml$` alternative of its path
pattern is end-anchored). -/
def INFRASTRUCTURE_MODULE : PromptModule :=
  { id := "infrastructure", name := "Infrastructure & Deployment", priority := 6,
    detectCondition := fun files => files.any fun f =>
      strIncludesCI f.path "docker" || strIncludesCI f.path "k8s"
      || strIncludesCI f.path "terraform" || strIncludesCI f.path "cloudformation"
      || strIncludesCI f.path ".yaml" || strEndsWithCI f.path ".yml"
      || strIncludes f.content "FROM " || strIncludes f.content "apiVersion:"
      || strIncludes f.content "resource \"aws_" }

/-- The registry order of `analyzeProject`'s `allModules` (also the order of
`ALL_MODULES`). -/
def allModules : List PromptModule :=
  [FRONTEND_REACT_MODULE, FRONTEND_STATE_MODULE, FRONTEND_STYLING_MODULE,
   BACKEND_API_MODULE, BACKEND_DATABASE_MODULE, BACKEND_SECURITY_MODULE,
   BACKEND_ARCHITECTURE_MODULE, BACKEND_OBSERVABILITY_MODULE, INFRASTRUCTURE_MODULE]

/-- Analysis depth of a `ProjectProfile`. -/
inductive AnalysisDepth where
  | quick
  | standard
  | deep
deriving DecidableEq

/-- `ProjectProfile`. -/
structure ProjectProfile where
  complexity : Complexity
  detectedModules : List PromptModule
  totalFiles : Nat
  primaryLanguage : String
  architecture : String
  estimatedAnalysisDepth : AnalysisDepth

/-- The comparator `(a, b) => b.priority - a.priority` of the detected-module
sort: `a` stays left of `b` iff the comparator is `≤ 0`. -/
def modLe (a b : PromptModule) : Prop := b.priority ≤ a.priority

instance : DecidableRel modLe := fun a b => Nat.decLe b.priority a.priority

/-- `analyzeProject` of the prompt library: detect modules, sort them by
descending priority (JS `Array.prototype.sort` is stable, embedded by the
stable `List.insertionSort`), classify complexity, infer language and
architecture, and pick the analysis depth. -/
def analyzeProject (files : List FileContent) : ProjectProfile :=
  let totalFiles := files.length
  let detectedModules :=
    (allModules.filter fun m => m.detectCondition files).insertionSort modLe
  let complexity : Complexity :=
    if totalFiles > 100 ∨ detectedModules.length > 6 then .enterprise
    else if totalFiles > 50 ∨ detectedModules.length > 4 then .complex
    else if totalFiles > 20 ∨ detectedModules.length > 2 then .medium
    else .simple
  let tsFiles := (files.filter fun f => strEndsWith f.path ".ts" || strEndsWith f.path ".tsx").length
  let jsFiles := (files.filter fun f => strEndsWith f.path ".js" || strEndsWith f.path ".jsx").length
  let pyFiles := (files.filter fun f => strEndsWith f.path ".py").length
  let primaryLanguage :=
    if pyFiles > tsFiles ∧ pyFiles > jsFiles then "Python"
    else if jsFiles > tsFiles then "JavaScript"
    else "TypeScript"
  let architecture :=
    if files.any fun f => strIncludes f.path "microservices" || strIncludes f.path "services/" then
      "Microservices"
    else if files.any fun f => strIncludes f.content "express" || strIncludes f.content "fastify" then
      "Backend API"
    else if files.any fun f => strEndsWith f.path ".tsx" || strEndsWith f.path ".jsx" then
      "Frontend SPA"
    else "Monolithic"
  let estimatedAnalysisDepth : AnalysisDepth :=
    if complexity = .enterprise ∨ detectedModules.length > 5 then .deep
    else if complexity = .complex ∨ detectedModules.length > 3 then .standard
    else .quick
  { complexity := complexity, detectedModules := detectedModules,
    totalFiles := totalFiles, primaryLanguage := primaryLanguage,
    architecture := architecture, estimatedAnalysisDepth := estimatedAnalysisDepth }

/- ### Context assembly and retry orchestration (`analyzeCodebase`) -/

/-- `MAX_TOTAL_CONTEXT_CHARS` of `constants.ts`. -/
def MAX_TOTAL_CONTEXT_CHARS : Nat := 800000

namespace GeminiService

/-- Is a module with this id among the profile's detected modules? -/
def modDetected (profile : ProjectProfile) (mid : String) : Bool :=
  profile.detectedModules.any fun m => m.id == mid

/-- The `highPriorityPatterns` list of `prioritizeFiles`, one path test per
detected module id, in source order. -/
def highPriorityPatterns (profile : ProjectProfile) : List (String → Bool) :=
  (if modDetected profile "backend_api" then
    [fun p => strIncludesCI p "routes" || strIncludesCI p "controllers" || strIncludesCI p "api"]
   else [])
  ++ (if modDetected profile "backend_database" then
    [fun p => strIncludesCI p "models" || strIncludesCI p "repositories"
      || strIncludesCI p "schema" || strIncludesCI p "prisma"]
   else [])
  ++ (if modDetected profile "backend_security" then
    [fun p => strIncludesCI p "auth" || strIncludesCI p "security" || strIncludesCI p "middleware"]
   else [])
  ++ (if modDetected profile "frontend_react" then
    [fun p => strIncludesCI p "components" || strIncludesCI p "pages"
      || strIncludesCI p "app.tsx" || strIncludesCI p "index.tsx"]
   else [])
  ++ (if modDetected profile "frontend_state" then
    [fun p => strIncludesCI p "store" || strIncludesCI p "state" || strIncludesCI p "context"
      || strIncludesCI p "redux" || strIncludesCI p "zustand"]
   else [])

/-- `highPriorityPatterns.some(p => p.test(file.path))`. -/
def isHighPriority (profile : ProjectProfile) (f : FileContent) : Bool :=
  (highPriorityPatterns profile).any fun pat => pat f.path

/-- The comparator of `prioritizeFiles`: high-priority files first, then by
ascending size; `a` stays left of `b` iff the comparator is `≤ 0`. -/
def fileLe (profile : ProjectProfile) (a b : FileContent) : Prop :=
  (isHighPriority profile a = true ∧ isHighPriority profile b = false)
  ∨ (isHighPriority profile a = isHighPriority profile b ∧ a.size ≤ b.size)

instance (profile : ProjectProfile) : DecidableRel (fileLe profile) := fun _ _ =>
  instDecidableOr

/-- `prioritizeFiles` (stable JS sort embedded by `List.insertionSort`). -/
def prioritizeFiles (files : List FileContent) (profile : ProjectProfile) :
    List FileContent :=
  files.insertionSort (fileLe profile)

/-- The context preamble pushed before the file loop (phase 3 of
`analyzeCodebase`); its characters are NOT counted into `totalChars`. -/
def contextPreamble (projectName : String) (profile : ProjectProfile) : List String :=
  ["# PROJECT ANALYSIS REQUEST\n",
   "Project: " ++ projectName ++ "\n",
   "Complexity: " ++ profile.complexity.str ++ "\n",
   "Architecture: " ++ profile.architecture ++ "\n",
   "Primary Language: " ++ profile.primaryLanguage ++ "\n",
   "Total Files: " ++ natRepr profile.totalFiles ++ "\n\n",
   "Detected Analysis Modules:\n"]
  ++ profile.detectedModules.map
    (fun m => "- " ++ m.name ++ " (Priority: " ++ natRepr m.priority ++ ")\n")
  ++ ["\n# CODEBASE FILES\n\n"]

/-- The per-file header `--- FILE: path (size bytes) ---`. -/
def fileHeaderStr (f : FileContent) : String :=
  "\n--- FILE: " ++ f.path ++ " (" ++ natRepr f.size ++ " bytes) ---\n"

/-- The omission marker appended when the budget is reached. -/
def truncationMarker (omitted : Nat) : String :=
  "\n[...Context limit reached. " ++ natRepr omitted ++ " files omitted...]\n"

/-- Result of the context-assembly loop: the accumulated parts, the
`totalChars` accumulator, whether truncation fired, and which files were
appended. -/
structure ContextResult where
  parts : List String
  totalChars : Nat
  truncated : Bool
  includedFiles : List FileContent

/-- The file-append loop of `analyzeCodebase`: stop with a truncation marker
as soon as the next header+content would push `totalChars` past the budget.
`idx` is the position of the current file in the prioritized list, which is
what `prioritizedFiles.indexOf(file)` evaluates to (JS reference equality on
the loop element); `allFiles` is the original `files.length`. -/
def contextLoop (allFiles : Nat) : List FileContent → Nat → Nat → ContextResult
  | [], total, _ => ⟨[], total, false, []⟩
  | f :: rest, total, idx =>
    let header := fileHeaderStr f
    if total + header.length + f.content.length > MAX_TOTAL_CONTEXT_CHARS then
      ⟨[truncationMarker (allFiles - idx)], total, true, []⟩
    else
      let r := contextLoop allFiles rest (total + header.length + f.content.length) (idx + 1)
      ⟨header :: f.content :: r.parts, r.totalChars, r.truncated, f :: r.includedFiles⟩

/-- `contextParts.join('')`. -/
def joinParts : List String → String
  | [] => ""
  | p :: ps => p ++ joinParts ps

/-- Phases 1-3 of `analyzeCodebase`: profile the project, prioritize the
files, and assemble the bounded context. -/
def assembleContext (files : List FileContent) (projectName : String) : ContextResult :=
  let profile := analyzeProject files
  let prioritized := prioritizeFiles files profile
  let r := contextLoop files.length prioritized 0 0
  ⟨contextPreamble projectName profile ++ r.parts, r.totalChars, r.truncated, r.includedFiles⟩

/-- The composed context string. -/
def contextText (files : List FileContent) (projectName : String) : String :=
  joinParts (assembleContext files projectName).parts

/- #### The retry loop (phase 6) -/

/-- Observable events of one `analyzeCodebase` run: a model invocation for a
given attempt number, or the fixed backoff wait (in milliseconds). -/
inductive RetryEvent where
  | modelCall (attempt : Nat)
  | backoff (ms : Nat)
deriving DecidableEq

/-- `const maxRetries = 2`. -/
def maxRetries : Nat := 2

/-- The error thrown on an empty model payload:
`if (!jsonText) throw new Error("Empty response from AI")`. -/
def emptyResponseError : String := "Empty response from AI"

/-- One attempt against the model collaborator: an empty response text is a
failure before parsing; otherwise the (externally supplied) parser decides. -/
def attemptOfModelText (text : Nat → String)
    (parse : String → Except String AnalysisReport) (n : Nat) :
    Except String AnalysisReport :=
  if text n = "" then Except.error emptyResponseError else parse (text n)

/-- The `for (let attempt = 1; attempt <= maxRetries; attempt++)` loop:
`remaining` counts the loop iterations left, `attempt` the 1-based attempt
number.  On failure the error is remembered and, when `attempt < maxRetries`,
a fixed 1000 ms backoff precedes the next attempt.  When the loop ends the
last error (or the fallback message) is raised. -/
def retryGo (attemptResult : Nat → Except String AnalysisReport) :
    Nat → Nat → Option String → List RetryEvent × Except String AnalysisReport
  | 0, _, lastError => ([], Except.error (lastError.getD "Analysis failed"))
  | remaining + 1, attempt, lastError =>
    match attemptResult attempt with
    | Except.ok rep => ([RetryEvent.modelCall attempt], Except.ok rep)
    | Except.error e =>
      let rest := retryGo attemptResult remaining (attempt + 1) (some e)
      (RetryEvent.modelCall attempt ::
        (if attempt < maxRetries then RetryEvent.backoff 1000 :: rest.1 else rest.1),
       rest.2)

/-- The whole retry orchestration of `analyzeCodebase`, abstracted over the
outcome of a single attempt, returning the event trace and the final
outcome. -/
def analyzeCodebaseAttempts (attemptResult : Nat → Except String AnalysisReport) :
    List RetryEvent × Except String AnalysisReport :=
  retryGo attemptResult maxRetries 1 none

/-- Number of model invocations in a trace. -/
def countCalls (events : List RetryEvent) : Nat :=
  (events.filter fun e => match e with
    | RetryEvent.modelCall _ => true
    | RetryEvent.backoff _ => false).length

end GeminiService

/- ### Concrete inputs and auxiliary definitions used by the theorems -/

/-- The model collaborator that always returns an empty response text; the
parser argument is irrelevant because an empty payload fails before
parsing. -/
def alwaysEmptyAttempt : Nat → Except String AnalysisReport :=
  GeminiService.attemptOfModelText (fun _ => "") (fun _ => Except.error "unreachable parse")
/-- A report with zero hotspots, zero bottlenecks, zero anti-patterns, no
optimized-code text, and the given summary/observations — the report shape
of the C1 scenario. -/
def zeroFindingsReport (pn : String) (n : Nat) (ts : String)
    (obs : List String) (summary : String) : AnalysisReport :=
  { projectName := pn, totalFilesScanned := n, timestamp := ts,
    highRiskHotspots := [], bottlenecks := [], antiPatterns := [],
    architecturalObservations := obs, optimizedCodeExample := "",
    summary := summary }
/-- Numeric rank of the tier ordering `simple < medium < complex < enterprise`. -/
def Complexity.rank : Complexity → Nat
  | .simple => 0
  | .medium => 1
  | .complex => 2
  | .enterprise => 3
/-- Position of a module id in the registry declaration order. -/
def registryIdIndex (mid : String) : Nat :=
  if mid = "frontend_react" then 0
  else if mid = "frontend_state" then 1
  else if mid = "frontend_styling" then 2
  else if mid = "backend_api" then 3
  else if mid = "backend_database" then 4
  else if mid = "backend_security" then 5
  else if mid = "backend_architecture" then 6
  else if mid = "backend_observability" then 7
  else 8

/- ### Helper lemmas: each sub-scorer stays inside `[0, max_for_dimension]` -/

theorem checkCompleteness_bounds (cx : Complexity) (r : AnalysisReport) :
    0 ≤ (QualityValidator.checkCompleteness cx r).1 ∧
      (QualityValidator.checkCompleteness cx r).1 ≤ 20 := by
  simp only [QualityValidator.checkCompleteness]
  split_ifs <;> omega

theorem checkSpecificity_bounds (r : AnalysisReport) :
    0 ≤ (QualityValidator.checkSpecificity r).1 ∧
      (QualityValidator.checkSpecificity r).1 ≤ 20 := by
  simp only [QualityValidator.checkSpecificity]
  split_ifs <;> omega

theorem checkQuantification_bounds (r : AnalysisReport) :
    0 ≤ (QualityValidator.checkQuantification r).1 ∧
      (QualityValidator.checkQuantification r).1 ≤ 25 := by
  simp only [QualityValidator.checkQuantification]
  split_ifs <;> omega

theorem checkActionability_bounds (r : AnalysisReport) :
    0 ≤ (QualityValidator.checkActionability r).1 ∧
      (QualityValidator.checkActionability r).1 ≤ 20 := by
  simp only [QualityValidator.checkActionability]
  split_ifs <;> omega

theorem checkConsistency_bounds (r : AnalysisReport) :
    0 ≤ (QualityValidator.checkConsistency r).1 ∧
      (QualityValidator.checkConsistency r).1 ≤ 15 := by
  simp only [QualityValidator.checkConsistency]
  split_ifs <;> omega

/-- C5: `overallScore` is the sum of the five breakdown dimensions, each
dimension lies in `[0, max_for_dimension]` (20/20/25/20/15), `overallScore`
lies in `[0, 100]`, and `passesThreshold` holds iff `overallScore ≥ 60`. -/
theorem C5_validate_invariants (cx : Complexity) (r : AnalysisReport) :
    (QualityValidator.validate cx r).overallScore =
        (QualityValidator.validate cx r).breakdown.completeness
        + (QualityValidator.validate cx r).breakdown.specificity
        + (QualityValidator.validate cx r).breakdown.quantification
        + (QualityValidator.validate cx r).breakdown.actionability
        + (QualityValidator.validate cx r).breakdown.consistency
      ∧ 0 ≤ (QualityValidator.validate cx r).breakdown.completeness
      ∧ (QualityValidator.validate cx r).breakdown.completeness ≤ 20
      ∧ 0 ≤ (QualityValidator.validate cx r).breakdown.specificity
      ∧ (QualityValidator.validate cx r).breakdown.specificity ≤ 20
      ∧ 0 ≤ (QualityValidator.validate cx r).breakdown.quantification
      ∧ (QualityValidator.validate cx r).breakdown.quantification ≤ 25
      ∧ 0 ≤ (QualityValidator.validate cx r).breakdown.actionability
      ∧ (QualityValidator.validate cx r).breakdown.actionability ≤ 20
      ∧ 0 ≤ (QualityValidator.validate cx r).breakdown.consistency
      ∧ (QualityValidator.validate cx r).breakdown.consistency ≤ 15
      ∧ 0 ≤ (QualityValidator.validate cx r).overallScore
      ∧ (QualityValidator.validate cx r).overallScore ≤ 100
      ∧ ((QualityValidator.validate cx r).passesThreshold = true ↔
          60 ≤ (QualityValidator.validate cx r).overallScore) := by
  have h1 := checkCompleteness_bounds cx r
  have h2 := checkSpecificity_bounds r
  have h3 := checkQuantification_bounds r
  have h4 := checkActionability_bounds r
  have h5 := checkConsistency_bounds r
  simp only [QualityValidator.validate, SCORE_THRESHOLD_ACCEPTABLE, decide_eq_true_iff]
  exact ⟨trivial, h1.1, h1.2, h2.1, h2.2, h3.1, h3.2, h4.1, h4.2, h5.1, h5.2,
    by omega, by omega, trivial⟩

/-- C2 counterexample: the claim says `detectedModules` is never empty, a
default module being added when no predicate matches; but `analyzeProject`
has no fallback, and on the empty file list every detection predicate fails,
so the profile's `detectedModules` is empty. -/
theorem C2_counterexample : (analyzeProject []).detectedModules = [] := by rfl

/-- C2 amended: `detectedModules` CAN be empty — there is no default
general-purpose fallback module.  On the empty file list the profile has
zero detected modules, `simple` complexity and `quick` depth (the behaviour
the spec's §4.2 guarantee describes). -/
theorem C2_amended_no_fallback :
    (analyzeProject []).detectedModules = []
      ∧ (analyzeProject []).complexity = Complexity.simple
      ∧ (analyzeProject []).estimatedAnalysisDepth = AnalysisDepth.quick := by
  refine ⟨rfl, rfl, rfl⟩

/-- C3 counterexample: against an always-empty collaborator the loop
`for (attempt = 1; attempt <= maxRetries; attempt++)` with `maxRetries = 2`
performs exactly 2 model calls in total — not `max_retries + 1 = 3` as the
claim states. -/
theorem C3_counterexample :
    GeminiService.countCalls
        (GeminiService.analyzeCodebaseAttempts alwaysEmptyAttempt).1 = 2
      ∧ GeminiService.maxRetries + 1 = 3 := by
  exact ⟨rfl, rfl⟩

/-- C3 amended: when every attempt fails, `analyzeCodebase` performs exactly
`maxRetries = 2` model calls (the loop bound counts total attempts, not
retries beyond the first), with the fixed 1000 ms backoff between the two
consecutive attempts, and then raises a terminal failure propagating the
error of the last attempt. -/
theorem C3_retry_loop (attemptResult : Nat → Except String AnalysisReport)
    (h : ∀ n, ∃ e, attemptResult n = Except.error e) :
    ∃ e1 e2, attemptResult 1 = Except.error e1
      ∧ attemptResult 2 = Except.error e2
      ∧ GeminiService.analyzeCodebaseAttempts attemptResult =
        ([GeminiService.RetryEvent.modelCall 1, GeminiService.RetryEvent.backoff 1000, GeminiService.RetryEvent.modelCall 2],
         Except.error e2) := by
  obtain ⟨e1, h1⟩ := h 1
  obtain ⟨e2, h2⟩ := h 2
  refine ⟨e1, e2, h1, h2, ?_⟩
  simp only [GeminiService.analyzeCodebaseAttempts, GeminiService.maxRetries,
    GeminiService.retryGo, h1, h2]
  rfl

/-- C3 witness: the amended retry-loop theorem applied to the always-empty
collaborator. -/
theorem C3_witness :
    ∃ e1 e2, alwaysEmptyAttempt 1 = Except.error e1
      ∧ alwaysEmptyAttempt 2 = Except.error e2
      ∧ GeminiService.analyzeCodebaseAttempts alwaysEmptyAttempt =
        ([GeminiService.RetryEvent.modelCall 1, GeminiService.RetryEvent.backoff 1000, GeminiService.RetryEvent.modelCall 2],
         Except.error e2) :=
  C3_retry_loop alwaysEmptyAttempt (fun _ => ⟨GeminiService.emptyResponseError, rfl⟩)

/-- C4 counterexample: a report whose every finding's impact field carries a
recognizable quantity (the single hotspot's impact is `"2.5s"`) but whose
optimized-code example carries none scores 20, not the full 25, on the
quantification dimension: `checkQuantification` also deducts 5 points when
`optimizedCodeExample` lacks a quantity. -/
theorem C4_counterexample :
    quantTest "2.5s" = true
      ∧ (QualityValidator.validate Complexity.complex
          { projectName := "p", totalFilesScanned := 1, timestamp := "t",
            highRiskHotspots := [⟨"a.ts:1", "x", "2.5s", "Backend"⟩],
            bottlenecks := [], antiPatterns := [], architecturalObservations := [],
            optimizedCodeExample := "", summary := "s" }).breakdown.quantification = 20 := by
  exact ⟨rfl, rfl⟩

/-- C4 amended: the quantification dimension scores the full 25 points iff
all three of its deduction sites are clean — every hotspot's `impact`
matches the quantification pattern, every bottleneck's `reason` or
`suggestion` matches it, and the `optimizedCodeExample` also matches it
(the last condition is what the original claim omits). -/
theorem C4_quantification_full_score (cx : Complexity) (r : AnalysisReport)
    (hh : ∀ h ∈ r.highRiskHotspots, quantTest h.impact = true)
    (hb : ∀ b ∈ r.bottlenecks, quantTest b.reason = true ∨ quantTest b.suggestion = true)
    (ho : quantTest r.optimizedCodeExample = true) :
    (QualityValidator.validate cx r).breakdown.quantification = 25 := by
  have hq : r.highRiskHotspots.filter (fun h => !quantTest h.impact) = [] := by
    rw [List.filter_eq_nil_iff]
    intro a ha
    simp [hh a ha]
  have hb' : r.bottlenecks.filter
      (fun b => !quantTest b.reason && !quantTest b.suggestion) = [] := by
    rw [List.filter_eq_nil_iff]
    intro a ha
    rcases hb a ha with h | h <;> simp [h]
  simp [QualityValidator.validate, QualityValidator.checkQuantification, hq, hb', ho]

/-- C4 witness: a concrete report quantified at every deduction site of the
quantification scorer earns the full 25 points. -/
theorem C4_witness :
    (QualityValidator.validate Complexity.simple
        { projectName := "p", totalFilesScanned := 2, timestamp := "t",
          highRiskHotspots := [⟨"a.ts:1", "slow query", "2.5s", "Backend"⟩],
          bottlenecks := [⟨"b.ts:2", "N+1", "adds 500ms per request", "batch the queries", "Backend"⟩],
          antiPatterns := [], architecturalObservations := [],
          optimizedCodeExample := "// 55x faster", summary := "s" }).breakdown.quantification
      = 25 :=
  C4_quantification_full_score Complexity.simple _
    (by decide) (by decide) (by decide)

/-- C1 counterexample: validating the zero-findings report with a 10-character
summary and no optimized-code text against tier `complex` yields
`passesThreshold = true` (overall score 63 = 0+20+20+8+15), NOT `false` as
claimed: completeness bottoms out at its clamp 0, but the other four
dimensions keep the total at or above the 60 threshold. -/
theorem C1_counterexample :
    ("0123456789" : String).length = 10
      ∧ (QualityValidator.validate Complexity.complex
          (zeroFindingsReport "p" 0 "t" [] "0123456789")).passesThreshold = true
      ∧ (QualityValidator.validate Complexity.complex
          (zeroFindingsReport "p" 0 "t" [] "0123456789")).overallScore = 63 := by
  refine ⟨rfl, by decide, by decide⟩

/-- C1 amended: for EVERY report with zero hotspots/bottlenecks/anti-patterns,
a summary of exactly 10 characters and no optimized-code text, `validate`
with tier `complex` reports at least one `critical` issue whose field
references the summary — but `passesThreshold` is `true` (the overall score
is 61 or 63, never below the 60 threshold), not `false` as the claim
states. -/
theorem C1_zero_findings_report (pn ts summary : String) (n : Nat)
    (obs : List String) (hs : summary.length = 10) :
    (QualityValidator.validate Complexity.complex
        (zeroFindingsReport pn n ts obs summary)).passesThreshold = true
      ∧ ∃ i ∈ (QualityValidator.validate Complexity.complex
            (zeroFindingsReport pn n ts obs summary)).issues,
          i.severity = Severity.critical ∧ i.field = some "summary" := by
  have hc4 : summary = "" ∨ summary.length < LIMIT_SUMMARY_MIN := by
    right
    simp [LIMIT_SUMMARY_MIN, hs]
  have h1 : (QualityValidator.checkCompleteness Complexity.complex
      (zeroFindingsReport pn n ts obs summary)).1 = 0 := by
    simp only [QualityValidator.checkCompleteness, zeroFindingsReport]
    simp +decide [MIN_FINDINGS, LIMIT_OPTIMIZED_CODE_MIN, eq_true hc4]
    split_ifs <;> decide
  have h2 : (QualityValidator.checkSpecificity
      (zeroFindingsReport pn n ts obs summary)).1 = 20 := by rfl
  have h3 : (QualityValidator.checkQuantification
      (zeroFindingsReport pn n ts obs summary)).1 = 20 := by rfl
  have h4 : (QualityValidator.checkActionability
      (zeroFindingsReport pn n ts obs summary)).1 = 8 := by rfl
  have h5 : 13 ≤ (QualityValidator.checkConsistency
      (zeroFindingsReport pn n ts obs summary)).1 ∧
      (QualityValidator.checkConsistency
        (zeroFindingsReport pn n ts obs summary)).1 ≤ 15 := by
    simp only [QualityValidator.checkConsistency, zeroFindingsReport]
    simp +decide [LIMIT_SUMMARY_MAX, QualityValidator.dupCount, hs]
    split_ifs <;> omega
  have hmem : (⟨Severity.critical, "completeness",
      "Summary is missing or too short", some "summary"⟩ : QualityIssue) ∈
      (QualityValidator.checkCompleteness Complexity.complex
        (zeroFindingsReport pn n ts obs summary)).2 := by
    simp only [QualityValidator.checkCompleteness, zeroFindingsReport]
    simp +decide [MIN_FINDINGS, LIMIT_OPTIMIZED_CODE_MIN, eq_true hc4]
  constructor
  · simp only [QualityValidator.validate, SCORE_THRESHOLD_ACCEPTABLE]
    rw [decide_eq_true_iff]
    omega
  · refine ⟨⟨Severity.critical, "completeness",
      "Summary is missing or too short", some "summary"⟩, ?_, rfl, rfl⟩
    simp only [QualityValidator.validate]
    exact List.mem_append.mpr (Or.inl (List.mem_append.mpr (Or.inl
      (List.mem_append.mpr (Or.inl (List.mem_append.mpr (Or.inl hmem)))))))

/-- C1 witness: the amended theorem instantiated at a concrete 10-character
summary. -/
theorem C1_witness :
    ("0123456789" : String).length = 10
      ∧ ((QualityValidator.validate Complexity.complex
          (zeroFindingsReport "q" 3 "ts" ["obs"] "0123456789")).passesThreshold = true
        ∧ ∃ i ∈ (QualityValidator.validate Complexity.complex
              (zeroFindingsReport "q" 3 "ts" ["obs"] "0123456789")).issues,
            i.severity = Severity.critical ∧ i.field = some "summary") :=
  ⟨rfl, C1_zero_findings_report "q" "ts" "0123456789" 3 ["obs"] (by rfl)⟩

/- ### Helper lemmas for the output enhancer -/

theorem prefixAt_append (nee : List Char) :
    ∀ (h t : List Char), prefixAt nee h = true → prefixAt nee (h ++ t) = true := by
  induction nee with
  | nil => intro h t _; rfl
  | cons a as ih =>
    intro h t hp
    cases h with
    | nil => simp [prefixAt] at hp
    | cons b bs =>
      simp only [prefixAt, Bool.and_eq_true] at hp ⊢
      exact ⟨hp.1, ih bs t hp.2⟩

theorem containsSub_nil_left : ∀ t : List Char, containsSub [] t = true := by
  intro t
  cases t <;> rfl

/-- A substring of the left part survives appending on the right. -/
theorem containsSub_append_left (nee : List Char) :
    ∀ (h t : List Char), containsSub nee h = true → containsSub nee (h ++ t) = true := by
  intro h
  induction h with
  | nil =>
    intro t hh
    simp only [containsSub] at hh
    cases nee with
    | nil => exact containsSub_nil_left t
    | cons a as => simp [prefixAt] at hh
  | cons c h' ih =>
    intro t hh
    simp only [containsSub, Bool.or_eq_true] at hh ⊢
    rcases hh with hp | hc
    · exact Or.inl (prefixAt_append nee (c :: h') t hp)
    · exact Or.inr (ih t hc)

theorem dropWhile_length_le (p : Char → Bool) :
    ∀ l : List Char, (l.dropWhile p).length ≤ l.length := by
  intro l
  induction l with
  | nil => simp
  | cons c t ih =>
    simp only [List.dropWhile_cons]
    split
    · simpa using Nat.le_succ_of_le ih
    · simp

theorem dropWhile_append_length_le (p : Char → Bool) :
    ∀ (x y : List Char), (y.dropWhile p).length ≤ ((x ++ y).dropWhile p).length := by
  intro x y
  induction x with
  | nil => simp
  | cons c t ih =>
    simp only [List.cons_append, List.dropWhile_cons]
    split
    · exact ih
    · have h := dropWhile_length_le p y
      simp only [List.length_cons, List.length_append]
      omega

/-- After the right-trim scan has crossed `" attention. ".reverse`, eleven of
its characters survive together with everything behind them. -/
theorem dropWhile_attention (Z : List Char) :
    11 + Z.length ≤ ((" attention. ".data.reverse ++ Z).dropWhile isJsWs).length := by
  have h : " attention. ".data.reverse
      = [' ', '.', 'n', 'o', 'i', 't', 'n', 'e', 't', 't', 'a', ' '] := rfl
  rw [h]
  simp [List.dropWhile, isJsWs]
  omega

/-- The synthesized summary lead keeps any such string at 50 characters or
more after trimming, whatever the interpolated counts, severity word and
original summary are. -/
theorem trimStr_lead50 (nh nb sev tail : String) :
    50 ≤ (trimStr ("Analysis found " ++ nh ++ " high-risk hotspots and " ++ nb
      ++ " performance bottlenecks requiring " ++ sev ++ " attention. " ++ tail)).length := by
  have hdata : ("Analysis found " ++ nh ++ " high-risk hotspots and " ++ nb
      ++ " performance bottlenecks requiring " ++ sev ++ " attention. " ++ tail).data
      = "Analysis found ".data ++ (nh.data ++ (" high-risk hotspots and ".data
        ++ (nb.data ++ (" performance bottlenecks requiring ".data
        ++ (sev.data ++ (" attention. ".data ++ tail.data)))))) := by
    simp [String.data_append]
  have hhead : "Analysis found ".data = 'A' :: "nalysis found ".data := rfl
  unfold trimStr
  rw [hdata, hhead]
  have hleft : (('A' :: "nalysis found ".data) ++ (nh.data ++ (" high-risk hotspots and ".data
      ++ (nb.data ++ (" performance bottlenecks requiring ".data
      ++ (sev.data ++ (" attention. ".data ++ tail.data))))))).dropWhile isJsWs
      = ('A' :: "nalysis found ".data) ++ (nh.data ++ (" high-risk hotspots and ".data
      ++ (nb.data ++ (" performance bottlenecks requiring ".data
      ++ (sev.data ++ (" attention. ".data ++ tail.data)))))) := by
    simp [List.dropWhile, isJsWs]
  rw [hleft]
  have hrev : ((('A' :: "nalysis found ".data) ++ (nh.data ++ (" high-risk hotspots and ".data
      ++ (nb.data ++ (" performance bottlenecks requiring ".data
      ++ (sev.data ++ (" attention. ".data ++ tail.data))))))).reverse)
      = tail.data.reverse ++ (" attention. ".data.reverse
        ++ (sev.data.reverse ++ (" performance bottlenecks requiring ".data.reverse
        ++ (nb.data.reverse ++ (" high-risk hotspots and ".data.reverse
        ++ (nh.data.reverse ++ ('A' :: "nalysis found ".data).reverse)))))) := by
    simp [List.reverse_append, List.append_assoc]
  rw [hrev]
  have h1 := dropWhile_append_length_le isJsWs tail.data.reverse
    (" attention. ".data.reverse
      ++ (sev.data.reverse ++ (" performance bottlenecks requiring ".data.reverse
      ++ (nb.data.reverse ++ (" high-risk hotspots and ".data.reverse
      ++ (nh.data.reverse ++ ('A' :: "nalysis found ".data).reverse))))))
  have h2 := dropWhile_attention
    (sev.data.reverse ++ (" performance bottlenecks requiring ".data.reverse
      ++ (nb.data.reverse ++ (" high-risk hotspots and ".data.reverse
      ++ (nh.data.reverse ++ ('A' :: "nalysis found ".data).reverse)))))
  have h3 : (" performance bottlenecks requiring ".data.reverse).length = 35 := rfl
  have h4 : (" high-risk hotspots and ".data.reverse).length = 24 := rfl
  have h5 : (('A' :: "nalysis found ".data).reverse).length = 15 := rfl
  simp only [String.length, List.length_reverse, List.length_append] at *
  omega

/-- Whatever report it is built from, the synthesized summary is at least 50
characters long, so a second enhancement pass leaves it alone. -/
theorem enhanceSummary_length (r : AnalysisReport) :
    50 ≤ (OutputEnhancer.enhanceSummary r).length := by
  unfold OutputEnhancer.enhanceSummary
  exact trimStr_lead50 (natRepr r.highRiskHotspots.length)
    (natRepr r.bottlenecks.length) _ r.summary

/-- The lowercase of a string starting with the `// BEFORE:` header contains
`before`. -/
theorem lower_wrapped_has_before (x y : String) :
    strIncludes (lowerStr ("// BEFORE: Current implementation\n" ++ x ++ y)) "before" = true := by
  unfold strIncludes lowerStr lowerL
  have hdata : ("// BEFORE: Current implementation\n" ++ x ++ y).data
      = "// BEFORE: Current implementation\n".data ++ (x.data ++ y.data) := by
    simp [String.data_append]
  rw [hdata, List.map_append]
  apply containsSub_append_left
  rfl

/-- Replacing `optimizedCodeExample` by itself is the identity update. -/
theorem report_eta_code (r : AnalysisReport) :
    { r with optimizedCodeExample := r.optimizedCodeExample } = r := by
  cases r
  rfl

/-- After the summary step the summary can no longer be shorter than 50
characters. -/
theorem summaryStep_long (r : AnalysisReport) :
    ¬ ((OutputEnhancer.enhanceSummaryStep r).summary.length < 50) := by
  unfold OutputEnhancer.enhanceSummaryStep
  split
  · have := enhanceSummary_length r
    simp only []
    omega
  · next h => exact h

/-- The summary step does not touch the optimized-code example. -/
theorem summaryStep_code (r : AnalysisReport) :
    (OutputEnhancer.enhanceSummaryStep r).optimizedCodeExample = r.optimizedCodeExample := by
  unfold OutputEnhancer.enhanceSummaryStep
  split <;> rfl

/-- The code step does not touch the summary. -/
theorem codeStep_summary (r : AnalysisReport) :
    (OutputEnhancer.enhanceCodeStep r).summary = r.summary := by
  unfold OutputEnhancer.enhanceCodeStep
  split <;> rfl

/-- The summary step is the identity on reports whose summary is already
long enough. -/
theorem summaryStep_id (r : AnalysisReport) (h : ¬ (r.summary.length < 50)) :
    OutputEnhancer.enhanceSummaryStep r = r := by
  unfold OutputEnhancer.enhanceSummaryStep
  rw [if_neg h]

/-- The code step is idempotent: it either leaves the code alone (the guard
already sees `before`, or the wrapper early-returns on an uppercase marker)
or prepends the `// BEFORE:` header, whose lowercase form satisfies the
guard afterwards. -/
theorem codeStep_idem (r : AnalysisReport) :
    OutputEnhancer.enhanceCodeStep (OutputEnhancer.enhanceCodeStep r)
      = OutputEnhancer.enhanceCodeStep r := by
  by_cases g : strIncludes (lowerStr r.optimizedCodeExample) "before" = false
  · by_cases ge : (strIncludes r.optimizedCodeExample "BEFORE"
        || strIncludes r.optimizedCodeExample "AFTER") = true
    · have hadd : OutputEnhancer.addBeforeAfterStructure r.optimizedCodeExample
          = r.optimizedCodeExample := by
        unfold OutputEnhancer.addBeforeAfterStructure
        rw [if_pos ge]
      have hy : OutputEnhancer.enhanceCodeStep r = r := by
        unfold OutputEnhancer.enhanceCodeStep
        rw [if_pos g, hadd, report_eta_code]
      rw [hy, hy]
    · have hadd : OutputEnhancer.addBeforeAfterStructure r.optimizedCodeExample
          = "// BEFORE: Current implementation\n"
            ++ OutputEnhancer.takeStr r.optimizedCodeExample (r.optimizedCodeExample.length / 2)
            ++ ("\n\n// AFTER: Optimized version\n"
              ++ OutputEnhancer.dropStr r.optimizedCodeExample (r.optimizedCodeExample.length / 2)
              ++ "\n\n// Performance improvement: [Specific metrics needed]") := by
        unfold OutputEnhancer.addBeforeAfterStructure
        rw [if_neg (by simpa using ge)]
        simp [String.append_assoc]
      have hy : OutputEnhancer.enhanceCodeStep r
          = { r with optimizedCodeExample :=
              OutputEnhancer.addBeforeAfterStructure r.optimizedCodeExample } := by
        unfold OutputEnhancer.enhanceCodeStep
        rw [if_pos g]
      rw [hy]
      unfold OutputEnhancer.enhanceCodeStep
      rw [if_neg]
      simp only [hadd]
      rw [lower_wrapped_has_before]
      simp
  · have hy : OutputEnhancer.enhanceCodeStep r = r := by
      unfold OutputEnhancer.enhanceCodeStep
      rw [if_neg g]
    rw [hy, hy]

/-- C10: `OutputEnhancer.enhance` is idempotent: once the summary has been
lengthened and the optimized-code example given BEFORE/AFTER structure, a
second application changes nothing. -/
theorem C10_enhance_idempotent (r : AnalysisReport) :
    OutputEnhancer.enhance (OutputEnhancer.enhance r) = OutputEnhancer.enhance r := by
  unfold OutputEnhancer.enhance
  rw [summaryStep_id (OutputEnhancer.enhanceCodeStep (OutputEnhancer.enhanceSummaryStep r))
    (by rw [codeStep_summary]; exact summaryStep_long r)]
  exact codeStep_idem _

/- ### Helper lemmas for profiling monotonicity and ordering -/

/-- Every registry detection predicate is monotone under appending files:
eight are `files.some(...)` and the architecture module adds a
`files.length > 20` disjunct, all of which only grow. -/
theorem detect_append (m : PromptModule) (hm : m ∈ allModules)
    (files extra : List FileContent) (h : m.detectCondition files = true) :
    m.detectCondition (files ++ extra) = true := by
  have hany : ∀ (p : FileContent → Bool), files.any p = true →
      (files ++ extra).any p = true := by
    intro p hp
    rw [List.any_append, hp]
    rfl
  have harch : decide (files.length > 20) = true →
      decide ((files ++ extra).length > 20) = true := by
    intro hl
    simp only [decide_eq_true_iff, List.length_append] at hl ⊢
    omega
  simp only [allModules, List.mem_cons, List.not_mem_nil, or_false] at hm
  rcases hm with rfl | rfl | rfl | rfl | rfl | rfl | rfl | rfl | rfl <;>
    simp only [FRONTEND_REACT_MODULE, FRONTEND_STATE_MODULE, FRONTEND_STYLING_MODULE,
      BACKEND_API_MODULE, BACKEND_DATABASE_MODULE, BACKEND_SECURITY_MODULE,
      BACKEND_ARCHITECTURE_MODULE, BACKEND_OBSERVABILITY_MODULE,
      INFRASTRUCTURE_MODULE] at h ⊢ <;>
    first
      | exact hany _ h
      | (rw [Bool.or_eq_true] at h ⊢
         rcases h with h | h
         · exact Or.inl (harch h)
         · exact Or.inr (hany _ h))

/-- Filtering with a pointwise-weaker predicate keeps at least as many
elements. -/
theorem filter_length_mono {α : Type} (l : List α) (p q : α → Bool)
    (h : ∀ a ∈ l, p a = true → q a = true) :
    (l.filter p).length ≤ (l.filter q).length := by
  induction l with
  | nil => simp
  | cons a t ih =>
    have ih' := ih fun x hx hp => h x (List.mem_cons_of_mem _ hx) hp
    by_cases hp : p a = true
    · have hq := h a (List.mem_cons_self _ _) hp
      simp only [List.filter_cons, hp, hq, if_true, List.length_cons]
      omega
    · simp only [List.filter_cons]
      rw [if_neg hp]
      split
      · simp only [List.length_cons]
        omega
      · exact ih'

/-- The profile's `detectedModules` is the stable priority sort of the
registry filter. -/
theorem detectedModules_def (fs : List FileContent) :
    (analyzeProject fs).detectedModules =
      (allModules.filter fun m => m.detectCondition fs).insertionSort modLe := rfl

/-- Appending files never loses a detected module. -/
theorem detectedModules_length_mono (files extra : List FileContent) :
    (analyzeProject files).detectedModules.length ≤
      (analyzeProject (files ++ extra)).detectedModules.length := by
  have h1 : ∀ l : List PromptModule, (l.insertionSort modLe).length = l.length :=
    fun l => (List.perm_insertionSort modLe l).length_eq
  rw [detectedModules_def, detectedModules_def, h1, h1]
  exact filter_length_mono allModules _ _ fun m hm hp => detect_append m hm files extra hp

/-- C8: appending additional files never lowers the computed complexity tier
— the tier is a monotone step function of `(totalFiles, detectedModuleCount)`
and both inputs only grow under appending. -/
theorem C8_complexity_monotone (files extra : List FileContent) :
    ((analyzeProject files).complexity).rank ≤
      ((analyzeProject (files ++ extra)).complexity).rank := by
  have hlen : files.length ≤ (files ++ extra).length := by
    simp only [List.length_append]
    omega
  have hmod := detectedModules_length_mono files extra
  have hc : ∀ fs : List FileContent, (analyzeProject fs).complexity =
      (if fs.length > 100 ∨ (analyzeProject fs).detectedModules.length > 6 then
        Complexity.enterprise
       else if fs.length > 50 ∨ (analyzeProject fs).detectedModules.length > 4 then
        Complexity.complex
       else if fs.length > 20 ∨ (analyzeProject fs).detectedModules.length > 2 then
        Complexity.medium
       else Complexity.simple) := fun fs => rfl
  rw [hc, hc]
  split_ifs <;> simp only [Complexity.rank] <;> omega

/-- Registry declaration index of a module. -/
def regIndex (m : PromptModule) : Nat := registryIdIndex m.id

/-- The strict order "higher priority first, registry order on ties". -/
def modBefore (a b : PromptModule) : Prop :=
  b.priority < a.priority ∨ (a.priority = b.priority ∧ regIndex a < regIndex b)

theorem orderedInsert_pairwise_modBefore (x : PromptModule) :
    ∀ ys : List PromptModule, ys.Pairwise modBefore →
      (∀ y ∈ ys, regIndex x < regIndex y) →
      (ys.orderedInsert modLe x).Pairwise modBefore := by
  intro ys
  induction ys with
  | nil => intro _ _; simp
  | cons y ys' ih =>
    intro hp hidx
    rw [List.pairwise_cons] at hp
    by_cases hle : modLe x y
    · rw [List.orderedInsert, if_pos hle]
      rw [List.pairwise_cons]
      constructor
      · intro z hz
        rcases List.mem_cons.mp hz with rfl | hz'
        · rcases Nat.lt_or_ge z.priority x.priority with hlt | hge
          · exact Or.inl hlt
          · have : z.priority = x.priority := Nat.le_antisymm hle hge
            exact Or.inr ⟨this.symm, hidx z (List.mem_cons_self _ _)⟩
        · have hyz := hp.1 z hz'
          have hzy : z.priority ≤ y.priority := by
            rcases hyz with h | h
            · omega
            · omega
          have hzx : z.priority ≤ x.priority := Nat.le_trans hzy hle
          rcases Nat.lt_or_ge z.priority x.priority with hlt | hge
          · exact Or.inl hlt
          · have : z.priority = x.priority := Nat.le_antisymm hzx hge
            exact Or.inr ⟨this.symm, hidx z (List.mem_cons_of_mem _ hz')⟩
      · rw [List.pairwise_cons]
        exact hp
    · rw [List.orderedInsert, if_neg hle]
      rw [List.pairwise_cons]
      constructor
      · intro z hz
        rcases (List.mem_orderedInsert modLe).mp hz with rfl | hz'
        · have : y.priority > z.priority := Nat.lt_of_not_le hle
          exact Or.inl this
        · exact hp.1 z hz'
      · exact ih hp.2 fun z hz => hidx z (List.mem_cons_of_mem _ hz)

theorem insertionSort_pairwise_modBefore :
    ∀ l : List PromptModule, l.Pairwise (fun a b => regIndex a < regIndex b) →
      (l.insertionSort modLe).Pairwise modBefore := by
  intro l
  induction l with
  | nil => intro _; simp
  | cons x xs ih =>
    intro hp
    rw [List.pairwise_cons] at hp
    rw [List.insertionSort]
    exact orderedInsert_pairwise_modBefore x _ (ih hp.2)
      fun y hy => hp.1 y ((List.mem_insertionSort modLe).mp hy)

theorem registry_pairwise :
    allModules.Pairwise (fun a b => regIndex a < regIndex b) := by
  simp only [allModules, regIndex, registryIdIndex, FRONTEND_REACT_MODULE,
    FRONTEND_STATE_MODULE, FRONTEND_STYLING_MODULE, BACKEND_API_MODULE,
    BACKEND_DATABASE_MODULE, BACKEND_SECURITY_MODULE, BACKEND_ARCHITECTURE_MODULE,
    BACKEND_OBSERVABILITY_MODULE, INFRASTRUCTURE_MODULE]
  norm_num [List.pairwise_cons]
  decide

/-- C9: for every file list, `detectedModules` is sorted by strictly
descending priority with ties resolved by registry declaration order (the JS
sort is stable), and — the profiler being a pure function — repeated calls
on the same input return the identical sequence. -/
theorem C9_detectedModules_sorted (files : List FileContent) :
    (analyzeProject files).detectedModules.Pairwise modBefore
      ∧ (analyzeProject files).detectedModules = (analyzeProject files).detectedModules := by
  refine ⟨?_, rfl⟩
  rw [detectedModules_def]
  exact insertionSort_pairwise_modBefore _ (registry_pairwise.filter _)

/- ### Helper lemmas about all-'a' haystacks (for the giant-file inputs) -/

theorem prefixAt_replicate_all (nee : List Char) :
    ∀ n, prefixAt nee (List.replicate n 'a') = true → ∀ c ∈ nee, c = 'a' := by
  induction nee with
  | nil => intro n _ c hc; simp at hc
  | cons x xs ih =>
    intro n h c hc
    cases n with
    | zero => simp [prefixAt] at h
    | succ m =>
      rw [List.replicate_succ] at h
      simp only [prefixAt, Bool.and_eq_true, beq_iff_eq] at h
      rcases List.mem_cons.mp hc with rfl | hc'
      · exact h.1
      · exact ih m h.2 c hc'

theorem containsSub_replicate_all (nee : List Char) :
    ∀ n, containsSub nee (List.replicate n 'a') = true → ∀ c ∈ nee, c = 'a' := by
  intro n
  induction n with
  | zero =>
    intro h c hc
    simp only [List.replicate, containsSub] at h
    exact prefixAt_replicate_all nee 0 h c hc
  | succ m ih =>
    intro h c hc
    rw [List.replicate_succ] at h
    simp only [containsSub, Bool.or_eq_true] at h
    rcases h with h | h
    · rw [← List.replicate_succ] at h
      exact prefixAt_replicate_all nee (m + 1) h c hc
    · exact ih h c hc

/-- A needle holding any character other than `'a'` never occurs in an
all-`'a'` haystack. -/
theorem containsSub_replicate_false (nee : List Char) (n : Nat)
    (h : ¬ (∀ c ∈ nee, c = 'a')) :
    containsSub nee (List.replicate n 'a') = false := by
  cases hc : containsSub nee (List.replicate n 'a')
  · rfl
  · exact absurd (containsSub_replicate_all nee n hc) h

theorem prefixAt_replicate_false (nee : List Char) (n : Nat)
    (h : ¬ (∀ c ∈ nee, c = 'a')) :
    prefixAt nee (List.replicate n 'a') = false := by
  cases hc : prefixAt nee (List.replicate n 'a')
  · rfl
  · exact absurd (prefixAt_replicate_all nee n hc) h

theorem lowerL_replicate (n : Nat) :
    lowerL (List.replicate n 'a') = List.replicate n 'a' := by
  simp only [lowerL, List.map_replicate]
  rfl

/- ### C6: the context preamble is not counted against the budget -/

/-- A 799 950-character file content (just below the budget once its header
is added). -/
def bigContent : String := String.mk (List.replicate 799950 'a')

/-- The pathological near-budget single file. -/
def bigFile : FileContent := ⟨"a", bigContent, 799950⟩

theorem bigIncl (nee : String) (h : ¬ (∀ c ∈ nee.data, c = 'a')) :
    strIncludes bigContent nee = false := by
  unfold strIncludes
  rw [show bigContent.data = List.replicate 799950 'a' from rfl]
  exact containsSub_replicate_false _ _ h

theorem bigInclCI (nee : String) (h : ¬ (∀ c ∈ nee.data, c = 'a')) :
    strIncludesCI bigContent nee = false := by
  unfold strIncludesCI
  rw [show bigContent.data = List.replicate 799950 'a' from rfl, lowerL_replicate]
  exact containsSub_replicate_false _ _ h

/-- No registry module detects the single all-`'a'` file at path `"a"`. -/
theorem bigFile_detect (m : PromptModule) (hm : m ∈ allModules) :
    m.detectCondition [bigFile] = false := by
  simp only [allModules, List.mem_cons, List.not_mem_nil, or_false] at hm
  have hb : bigFile.content = bigContent := rfl
  rcases hm with rfl | rfl | rfl | rfl | rfl | rfl | rfl | rfl | rfl <;>
    simp only [FRONTEND_REACT_MODULE, FRONTEND_STATE_MODULE, FRONTEND_STYLING_MODULE,
      BACKEND_API_MODULE, BACKEND_DATABASE_MODULE, BACKEND_SECURITY_MODULE,
      BACKEND_ARCHITECTURE_MODULE, BACKEND_OBSERVABILITY_MODULE, INFRASTRUCTURE_MODULE,
      List.any_cons, List.any_nil, Bool.or_false, hb]
  · rw [bigIncl "import React" (by decide), bigIncl "from \"react\"" (by decide)]
    decide
  · rw [bigInclCI "redux" (by decide), bigInclCI "zustand" (by decide),
      bigInclCI "jotai" (by decide), bigInclCI "recoil" (by decide),
      bigInclCI "mobx" (by decide), bigInclCI "xstate" (by decide),
      bigInclCI "valtio" (by decide), bigIncl "createContext" (by decide),
      bigIncl "useReducer" (by decide)]
    decide
  · rw [bigInclCI "styled-components" (by decide), bigInclCI "emotion" (by decide),
      bigInclCI "tailwind" (by decide), bigInclCI "@apply" (by decide),
      bigIncl "className=" (by decide)]
    decide
  · rw [bigInclCI "express" (by decide), bigInclCI "fastify" (by decide),
      bigInclCI "koa" (by decide), bigInclCI "hono" (by decide),
      bigInclCI "elysia" (by decide), bigInclCI "app.get" (by decide),
      bigInclCI "app.post" (by decide), bigInclCI "app.put" (by decide),
      bigInclCI "app.delete" (by decide), bigInclCI "app.patch" (by decide),
      bigInclCI "@get" (by decide), bigInclCI "@post" (by decide),
      bigInclCI "@put" (by decide), bigInclCI "@delete" (by decide),
      bigInclCI "@controller" (by decide)]
    decide
  · rw [bigInclCI "prisma" (by decide), bigInclCI "typeorm" (by decide),
      bigInclCI "sequelize" (by decide), bigInclCI "mongoose" (by decide),
      bigInclCI "drizzle" (by decide), bigInclCI "select" (by decide),
      bigInclCI "insert" (by decide), bigInclCI "update" (by decide),
      bigInclCI "delete" (by decide), bigInclCI "from" (by decide),
      bigInclCI "where" (by decide), bigIncl "await db." (by decide),
      bigIncl ".query(" (by decide), bigIncl ".execute(" (by decide)]
    decide
  · rw [bigInclCI "password" (by decide), bigInclCI "token" (by decide),
      bigInclCI "secret" (by decide), bigInclCI "api_key" (by decide),
      bigInclCI "auth" (by decide), bigInclCI "jwt" (by decide),
      bigIncl "crypto" (by decide), bigIncl "bcrypt" (by decide)]
    decide
  · decide
  · rw [bigInclCI "console.log" (by decide), bigInclCI "console.error" (by decide),
      bigInclCI "console.warn" (by decide), bigInclCI "winston" (by decide),
      bigInclCI "pino" (by decide), bigInclCI "bunyan" (by decide),
      bigInclCI "logger" (by decide), bigIncl "try" (by decide),
      bigIncl "catch" (by decide)]
    decide
  · rw [bigIncl "FROM " (by decide), bigIncl "apiVersion:" (by decide),
      bigIncl "resource \"aws_" (by decide)]
    decide

theorem bigProfile_modules : (analyzeProject [bigFile]).detectedModules = [] := by
  rw [detectedModules_def]
  have h : allModules.filter (fun m => m.detectCondition [bigFile]) = [] := by
    rw [List.filter_eq_nil_iff]
    intro m hm
    simp [bigFile_detect m hm]
  rw [h]
  rfl

/-- The complexity classification as a function of the profile's own
fields (definitional unfolding of `analyzeProject`). -/
theorem complexity_def (fs : List FileContent) :
    (analyzeProject fs).complexity =
      (if fs.length > 100 ∨ (analyzeProject fs).detectedModules.length > 6 then
        Complexity.enterprise
       else if fs.length > 50 ∨ (analyzeProject fs).detectedModules.length > 4 then
        Complexity.complex
       else if fs.length > 20 ∨ (analyzeProject fs).detectedModules.length > 2 then
        Complexity.medium
       else Complexity.simple) := rfl

/-- The architecture heuristic as a function of the file list
(definitional unfolding of `analyzeProject`). -/
theorem architecture_def (fs : List FileContent) :
    (analyzeProject fs).architecture =
      (if fs.any fun f => strIncludes f.path "microservices" || strIncludes f.path "services/" then
        "Microservices"
       else if fs.any fun f => strIncludes f.content "express" || strIncludes f.content "fastify" then
        "Backend API"
       else if fs.any fun f => strEndsWith f.path ".tsx" || strEndsWith f.path ".jsx" then
        "Frontend SPA"
       else "Monolithic") := rfl

theorem bigProfile_complexity : (analyzeProject [bigFile]).complexity = Complexity.simple := by
  rw [complexity_def, bigProfile_modules]
  decide

theorem bigProfile_architecture :
    (analyzeProject [bigFile]).architecture = "Monolithic" := by
  rw [architecture_def]
  rw [if_neg (by decide)]
  rw [if_neg ?hc2]
  case hc2 =>
    simp only [List.any_cons, List.any_nil, Bool.or_false,
      show bigFile.content = bigContent from rfl]
    rw [bigIncl "express" (by decide), bigIncl "fastify" (by decide)]
    simp
  rw [if_neg (by decide)]

theorem bigProfile_language :
    (analyzeProject [bigFile]).primaryLanguage = "TypeScript" := rfl

theorem joinParts_length :
    ∀ l : List String, (GeminiService.joinParts l).length = (l.map String.length).sum := by
  intro l
  induction l with
  | nil => rfl
  | cons p ps ih =>
    simp only [GeminiService.joinParts, String.length_append, ih, List.map_cons, List.sum_cons]

/-- The `totalChars` accumulator never exceeds the budget: a file is only
counted after the overflow check has passed. -/
theorem contextLoop_totalChars_le (allF : Nat) :
    ∀ (fs : List FileContent) (total idx : Nat), total ≤ MAX_TOTAL_CONTEXT_CHARS →
      (GeminiService.contextLoop allF fs total idx).totalChars ≤ MAX_TOTAL_CONTEXT_CHARS := by
  intro fs
  induction fs with
  | nil => intro total idx h; exact h
  | cons f rest ih =>
    intro total idx h
    rw [GeminiService.contextLoop]
    split
    · exact h
    · next hc =>
      exact ih _ (idx + 1) (by omega)

/-- C6 amended: for every input the loop's character accumulator stays within
`MAX_TOTAL_CONTEXT_CHARS` — this is the quantity the budget check actually
bounds.  The composed context STRING can still exceed the budget (see the
counterexample): the preamble and the omission marker are never counted. -/
theorem C6_totalChars_bounded (files : List FileContent) (pn : String) :
    (GeminiService.assembleContext files pn).totalChars ≤ MAX_TOTAL_CONTEXT_CHARS := by
  unfold GeminiService.assembleContext
  exact contextLoop_totalChars_le _ _ 0 0 (by simp [MAX_TOTAL_CONTEXT_CHARS])

/-- The digit rendering is independent of the fuel as soon as the fuel
exceeds the number. -/
theorem natRevDigits_fuel (n : Nat) :
    ∀ f1 f2, n < f1 → n < f2 → natRevDigits f1 n = natRevDigits f2 n := by
  induction n using Nat.strong_induction_on with
  | _ n ih =>
    intro f1 f2 h1 h2
    match f1, h1 with
    | g1 + 1, h1 =>
      match f2, h2 with
      | g2 + 1, h2 =>
        rw [natRevDigits, natRevDigits]
        split
        · rfl
        · next h10 =>
          have hd : n / 10 < n := Nat.div_lt_self (by omega) (by omega)
          rw [ih (n / 10) hd g1 g2 (by omega) (by omega)]

theorem natRepr_799950 : natRepr 799950 = "799950" := by
  have step : ∀ n : Nat, ¬ n < 10 →
      natRevDigits (n + 1) n = Char.ofNat (48 + n % 10) :: natRevDigits (n / 10 + 1) (n / 10) := by
    intro n h
    rw [natRevDigits, if_neg h]
    have hd : n / 10 < n := Nat.div_lt_self (by omega) (by omega)
    rw [natRevDigits_fuel (n / 10) n (n / 10 + 1) (by omega) (by omega)]
  unfold natRepr
  rw [step 799950 (by omega)]
  norm_num
  rw [step 79995 (by omega)]
  norm_num
  rw [step 7999 (by omega)]
  norm_num
  rw [step 799 (by omega)]
  norm_num
  rw [step 79 (by omega)]
  norm_num
  rfl

theorem bigFile_header_length : (GeminiService.fileHeaderStr bigFile).length = 32 := by
  unfold GeminiService.fileHeaderStr
  rw [show bigFile.path = "a" from rfl, show bigFile.size = 799950 from rfl,
    natRepr_799950]
  decide

theorem bigFile_no_overflow : ¬ (0 + (GeminiService.fileHeaderStr bigFile).length
    + bigFile.content.length > MAX_TOTAL_CONTEXT_CHARS) := by
  rw [bigFile_header_length]
  rw [show bigFile.content.length = 799950 from List.length_replicate 799950 'a']
  decide

theorem bigFile_loop_parts :
    (GeminiService.contextLoop [bigFile].length [bigFile] 0 0).parts
      = [GeminiService.fileHeaderStr bigFile, bigFile.content] := by
  rw [GeminiService.contextLoop, if_neg bigFile_no_overflow]
  rfl

theorem bigFile_loop_truncated :
    (GeminiService.contextLoop [bigFile].length [bigFile] 0 0).truncated = false := by
  rw [GeminiService.contextLoop, if_neg bigFile_no_overflow]
  rfl

theorem bigFile_preamble : GeminiService.contextPreamble "P" (analyzeProject [bigFile]) =
    ["# PROJECT ANALYSIS REQUEST\n", "Project: P\n", "Complexity: simple\n",
     "Architecture: Monolithic\n", "Primary Language: TypeScript\n",
     "Total Files: 1\n\n", "Detected Analysis Modules:\n",
     "\n# CODEBASE FILES\n\n"] := by
  unfold GeminiService.contextPreamble
  rw [bigProfile_modules, bigProfile_complexity, bigProfile_architecture,
    bigProfile_language]
  rfl

/-- Definitional shape of `assembleContext`'s parts field. -/
theorem assembleContext_parts (files : List FileContent) (pn : String) :
    (GeminiService.assembleContext files pn).parts =
      GeminiService.contextPreamble pn (analyzeProject files)
        ++ (GeminiService.contextLoop files.length
            (GeminiService.prioritizeFiles files (analyzeProject files)) 0 0).parts := rfl

/-- Definitional shape of `assembleContext`'s truncation flag. -/
theorem assembleContext_truncated (files : List FileContent) (pn : String) :
    (GeminiService.assembleContext files pn).truncated =
      (GeminiService.contextLoop files.length
        (GeminiService.prioritizeFiles files (analyzeProject files)) 0 0).truncated := rfl

/-- Definitional shape of `assembleContext`'s included-file list. -/
theorem assembleContext_included (files : List FileContent) (pn : String) :
    (GeminiService.assembleContext files pn).includedFiles =
      (GeminiService.contextLoop files.length
        (GeminiService.prioritizeFiles files (analyzeProject files)) 0 0).includedFiles := rfl

/-- `contextText` is the join of the assembled parts. -/
theorem contextText_def (files : List FileContent) (pn : String) :
    GeminiService.contextText files pn =
      GeminiService.joinParts (GeminiService.assembleContext files pn).parts := rfl

/-- C6 counterexample: a single 799 950-character file fits the loop's budget
check (header 32 + content 799 950 ≤ 800 000) and is appended without
truncation, but the uncounted 173-character preamble pushes the composed
context string to 800 155 characters — strictly above
`MAX_TOTAL_CONTEXT_CHARS`.  (The system instruction has no configured budget
constant at all in the source.) -/
theorem C6_counterexample :
    MAX_TOTAL_CONTEXT_CHARS < (GeminiService.contextText [bigFile] "P").length
      ∧ (GeminiService.assembleContext [bigFile] "P").truncated = false := by
  constructor
  · rw [contextText_def, assembleContext_parts]
    rw [show GeminiService.prioritizeFiles [bigFile] (analyzeProject [bigFile])
      = [bigFile] from rfl]
    rw [bigFile_loop_parts, bigFile_preamble]
    rw [joinParts_length, List.map_append, List.sum_append]
    rw [show List.map String.length [GeminiService.fileHeaderStr bigFile, bigFile.content]
      = [(GeminiService.fileHeaderStr bigFile).length, bigFile.content.length] from rfl]
    rw [bigFile_header_length]
    rw [show bigFile.content.length = 799950 from List.length_replicate 799950 'a']
    decide
  · rw [assembleContext_truncated]
    rw [show GeminiService.prioritizeFiles [bigFile] (analyzeProject [bigFile])
      = [bigFile] from rfl]
    rw [bigFile_loop_truncated]

/- ### C7: headers count against the budget too -/

/-- A file with an 800 001-character path and empty content: its content sum
is 0, yet its header alone exceeds the budget. -/
def longPathFile : FileContent := ⟨String.mk (List.replicate 800001 'a'), "", 0⟩

theorem longPath_header_length :
    (GeminiService.fileHeaderStr longPathFile).length = 800027 := by
  unfold GeminiService.fileHeaderStr
  rw [show longPathFile.size = 0 from rfl]
  rw [String.length_append, String.length_append, String.length_append,
    String.length_append]
  rw [show longPathFile.path.length = 800001 from List.length_replicate 800001 'a']
  decide

theorem longPath_overflow : 0 + (GeminiService.fileHeaderStr longPathFile).length
    + longPathFile.content.length > MAX_TOTAL_CONTEXT_CHARS := by
  rw [longPath_header_length, show longPathFile.content.length = 0 from rfl]
  decide

/-- C7 counterexample: the sum of all file contents (0 characters) is far
below the context budget, yet the assembly truncates and includes no file at
all — the budget check counts the per-file header, and this file's header
alone is 800 027 characters. -/
theorem C7_counterexample :
    ([longPathFile].map fun f => f.content.length).sum < MAX_TOTAL_CONTEXT_CHARS
      ∧ (GeminiService.assembleContext [longPathFile] "P").truncated = true
      ∧ (GeminiService.assembleContext [longPathFile] "P").includedFiles = [] := by
  refine ⟨by decide, ?_, ?_⟩
  · rw [assembleContext_truncated]
    rw [show GeminiService.prioritizeFiles [longPathFile] (analyzeProject [longPathFile])
      = [longPathFile] from rfl]
    rw [GeminiService.contextLoop, if_pos longPath_overflow]
  · rw [assembleContext_included]
    rw [show GeminiService.prioritizeFiles [longPathFile] (analyzeProject [longPathFile])
      = [longPathFile] from rfl]
    rw [GeminiService.contextLoop, if_pos longPath_overflow]

/-- If the accumulated budget covers every remaining header+content pair, the
loop appends every file in order and never truncates. -/
theorem contextLoop_no_trunc (allF : Nat) :
    ∀ (fs : List FileContent) (total idx : Nat),
      total + (fs.map fun f => (GeminiService.fileHeaderStr f).length + f.content.length).sum
          ≤ MAX_TOTAL_CONTEXT_CHARS →
      (GeminiService.contextLoop allF fs total idx).truncated = false
        ∧ (GeminiService.contextLoop allF fs total idx).includedFiles = fs := by
  intro fs
  induction fs with
  | nil => intro total idx _; exact ⟨rfl, rfl⟩
  | cons f rest ih =>
    intro total idx h
    simp only [List.map_cons, List.sum_cons] at h
    rw [GeminiService.contextLoop]
    rw [if_neg (by omega)]
    constructor
    · show (GeminiService.contextLoop allF rest
        (total + (GeminiService.fileHeaderStr f).length + f.content.length) (idx + 1)).truncated
          = false
      exact (ih _ _ (by omega)).1
    · show f :: (GeminiService.contextLoop allF rest
        (total + (GeminiService.fileHeaderStr f).length + f.content.length) (idx + 1)).includedFiles
          = f :: rest
      rw [(ih _ _ (by omega)).2]

/-- C7 amended: when the summed header-plus-content lengths of all files fit
inside `MAX_TOTAL_CONTEXT_CHARS` (the code counts each file's header, not
only its content), no truncation happens and the included files are exactly
a permutation (the prioritized reordering) of the input — every input file
appears in the context exactly once. -/
theorem C7_all_files_included (files : List FileContent) (pn : String)
    (h : (files.map fun f => (GeminiService.fileHeaderStr f).length + f.content.length).sum
        ≤ MAX_TOTAL_CONTEXT_CHARS) :
    (GeminiService.assembleContext files pn).truncated = false
      ∧ (GeminiService.assembleContext files pn).includedFiles.Perm files := by
  rw [assembleContext_truncated, assembleContext_included]
  have hperm : (GeminiService.prioritizeFiles files (analyzeProject files)).Perm files :=
    List.perm_insertionSort _ files
  have hsum : ((GeminiService.prioritizeFiles files (analyzeProject files)).map
      fun f => (GeminiService.fileHeaderStr f).length + f.content.length).sum
      = (files.map fun f => (GeminiService.fileHeaderStr f).length + f.content.length).sum :=
    (hperm.map _).sum_eq
  have hloop := contextLoop_no_trunc files.length
    (GeminiService.prioritizeFiles files (analyzeProject files)) 0 0 (by omega)
  refine ⟨hloop.1, ?_⟩
  rw [hloop.2]
  exact hperm

/-- C7 witness: a two-file list whose headers and contents all fit is fully
included without truncation. -/
theorem C7_witness :
    ((([⟨"x.ts", "hello", 5⟩, ⟨"b", "c", 1⟩] : List FileContent).map
        fun f => (GeminiService.fileHeaderStr f).length + f.content.length).sum
        ≤ MAX_TOTAL_CONTEXT_CHARS)
      ∧ ((GeminiService.assembleContext [⟨"x.ts", "hello", 5⟩, ⟨"b", "c", 1⟩] "W").truncated = false
        ∧ (GeminiService.assembleContext [⟨"x.ts", "hello", 5⟩, ⟨"b", "c", 1⟩] "W").includedFiles.Perm
            [⟨"x.ts", "hello", 5⟩, ⟨"b", "c", 1⟩]) :=
  ⟨by decide, C7_all_files_included [⟨"x.ts", "hello", 5⟩, ⟨"b", "c", 1⟩] "W" (by decide)⟩
